import Mathlib

/-!
Shallow embedding of the S3 object-store adapter in
`src/datafusion-s3/src/main.rs` (crate `datafusion-s3` of this repository).

Conventions of the embedding:
* Rust strings (`String` / `&str`) are modelled as `List Char`; the byte-range
  header built with `format!` is modelled as a Lean `String`.
* Byte buffers (`bytes::Bytes`, `Vec<u8>`) are modelled as `List Nat`.
* Opaque AWS SDK configuration payloads (`SharedCredentialsProvider`, `Region`,
  `Endpoint`, `RetryConfig`, `Arc<dyn AsyncSleep>`, `TimeoutConfig`) are
  modelled as `String` values: the adapter only threads them through, it never
  inspects them.
* The remote S3 service is a parameter: a store maps `(bucket, key)` to the
  object's bytes when the object exists.  `get_object` implements the HTTP
  byte-range semantics the SDK request obeys: an inclusive range `a-b` on an
  object of `n` bytes succeeds when `a < n` and returns bytes `a .. min b (n-1)`;
  a range starting at or past the end fails with an `InvalidRange` error.
* The cross-thread handoff (`mpsc::channel` plus `recv_timeout`) is modelled by
  a `delivered : Bool` flag: `true` means the worker's single message arrived
  within the bounded wait, `false` means the wait timed out.
-/

/-- Modelled from the spec: the module `src/datafusion-s3/src/error.rs` is not
present under `src/`; `main.rs` only uses the constructor
`S3Error::AWS(format!("{:?}", err))`, and the spec states that all
remote-provider errors are wrapped with their diagnostic detail preserved as
text.  `S3Error.AWS` carries that opaque diagnostic string. -/
inductive S3Error where
  | AWS (detail : String)
deriving DecidableEq, Repr

/-- The slice of `datafusion::error::DataFusionError` the adapter uses: every
error it produces is `DataFusionError::External(Box::new(S3Error::…))`. -/
inductive DataFusionError where
  | External (e : S3Error)
deriving DecidableEq, Repr

/-- Embedding of `prefix.split_once("/")` (Rust `str::split_once` with the
one-character pattern `"/"`): `some (before, after)` splits at the first `'/'`,
`none` when the string has no `'/'`. -/
def splitOnceSlash : List Char → Option (List Char × List Char)
  | [] => none
  | c :: rest =>
    if c = '/' then some ([], rest)
    else
      match splitOnceSlash rest with
      | some (a, b) => some (c :: a, b)
      | none => none

/-- The `match … split_once("/") { Some((a, b)) => (a, b), None => (s, "") }`
idiom used both by `S3FileSystem::list_file` (main.rs lines 129-132) and by the
worker in `AmazonS3FileReader::sync_chunk_reader` (lines 253-256). -/
def splitAtFirstSlash (s : List Char) : List Char × List Char :=
  match splitOnceSlash s with
  | some (a, b) => (a, b)
  | none => (s, [])

/-- An S3 store: which `(bucket, key)` pairs hold an object, and its bytes. -/
def S3Store : Type := List Char → List Char → Option (List Nat)

/-- Model of the provider's get-object call with an optional inclusive byte
range, as described in the embedding conventions above.  The error strings
stand for the provider's diagnostic detail (`format!("{:?}", err)` applies to
them unchanged in this model). -/
def get_object (store : S3Store) (bucket key : List Char)
    (range : Option (Nat × Nat)) : Except String (List Nat) :=
  match store bucket key with
  | none => .error "NoSuchKey"
  | some data =>
    match range with
    | none => .ok data
    | some (a, b) =>
      if a < data.length then .ok ((data.drop a).take (b - a + 1))
      else .error "InvalidRange"

/-- The inclusive range the request carries (main.rs lines 259-267): set only
when `length > 0`, in which case it is `start .. start + (length - 1)`. -/
def requestRange (start length : Nat) : Option (Nat × Nat) :=
  if 0 < length then some (start, start + (length - 1)) else none

/-- The range header string the code formats (main.rs line 262):
`format!("bytes={}-{}", start, start + (length - 1) as u64)`, present exactly
when `length > 0`. -/
def rangeHeader (start length : Nat) : Option String :=
  (requestRange start length).map
    (fun p => "bytes=" ++ toString p.1 ++ "-" ++ toString p.2)

/-- A built client configuration: the six settings `new_client` can touch.  In
the model a `Client` is identified with the configuration it was built from
(`Client::from_conf(config)` in main.rs line 90). -/
structure ClientConfig where
  credentials : String
  region : Option String
  endpoint : String
  retry : String
  sleep : String
  timeout : String
deriving DecidableEq, Repr

/-- The hardcoded fallback region of the region provider chain
(main.rs line 65: `or_else(Region::new("us-west-2"))`). -/
def fallbackRegion : String := "us-west-2"

/-- Embedding of the region provider chain (main.rs lines 63-65):
`RegionProviderChain::first_try(region).or_default_provider().or_else(Region::new("us-west-2"))`.
`platformDefault` is what the platform's default provider would yield (`none`
when it resolves nothing). -/
def resolveRegion (explicit platformDefault : Option String) : String :=
  match explicit with
  | some r => r
  | none =>
    match platformDefault with
    | some r => r
    | none => fallbackRegion

/-- Embedding of `new_client` (main.rs lines 53-91).  `env` is the
configuration loaded by `aws_config::load_from_env()`; the builder starts from
it, sets the resolved region, then applies each present override, in the
code's order: region, credentials, endpoint, retry, sleep, timeout. -/
def new_client (env : ClientConfig) (platformDefault : Option String)
    (credentials_provider : Option String) (region : Option String)
    (endpoint : Option String) (retry_config : Option String)
    (sleep : Option String) (timeout_config : Option String) : ClientConfig :=
  let b0 := { env with region := some (resolveRegion region platformDefault) }
  let b1 := match credentials_provider with
            | some c => { b0 with credentials := c }
            | none => b0
  let b2 := match endpoint with
            | some e => { b1 with endpoint := e }
            | none => b1
  let b3 := match retry_config with
            | some r => { b2 with retry := r }
            | none => b2
  let b4 := match sleep with
            | some s => { b3 with sleep := s }
            | none => b3
  let b5 := match timeout_config with
            | some t => { b4 with timeout := t }
            | none => b4
  b5

/-- Written from the spec's words (section 4.3), for comparison with
`new_client`: apply the overrides on top of the loaded defaults in the spec's
stated precedence order credentials → region → endpoint → retry → sleep →
timeout, each falling through to the loaded default when absent. -/
def applyOverridesSpecOrder (env : ClientConfig) (platformDefault : Option String)
    (credentials_provider : Option String) (region : Option String)
    (endpoint : Option String) (retry_config : Option String)
    (sleep : Option String) (timeout_config : Option String) : ClientConfig :=
  let b0 := match credentials_provider with
            | some c => { env with credentials := c }
            | none => env
  let b1 := { b0 with region := some (resolveRegion region platformDefault) }
  let b2 := match endpoint with
            | some e => { b1 with endpoint := e }
            | none => b1
  let b3 := match retry_config with
            | some r => { b2 with retry := r }
            | none => b2
  let b4 := match sleep with
            | some s => { b3 with sleep := s }
            | none => b3
  let b5 := match timeout_config with
            | some t => { b4 with timeout := t }
            | none => b4
  b5

/-- Embedding of `datafusion::datasource::object_store::SizedFile`: the path
and size the adapter stores for an object. -/
structure SizedFile where
  path : List Char
  size : Nat
deriving DecidableEq, Repr

/-- A provider listing entry (`aws_sdk_s3::model::Object`): optional key,
signed 64-bit size, optional last-modified instant (modelled as an integer
timestamp). -/
structure S3Object where
  key : Option (List Char)
  size : Int
  last_modified : Option Int
deriving DecidableEq, Repr

/-- Embedding of `datafusion::datasource::object_store::FileMeta` (a
`SizedFile` plus the optional last-modified timestamp). -/
structure FileMeta where
  sized_file : SizedFile
  last_modified : Option Int
deriving DecidableEq, Repr

/-- Rust's `i64 as u64` cast: reinterpretation modulo `2^64`
(main.rs line 150: `object.size() as u64`). -/
def i64_as_u64 (n : Int) : Nat := (n % ((2 : Int) ^ 64)).toNat

/-- The `DateTime::to_chrono_utc` conversion (main.rs line 154): it changes the
representation of the instant, not the instant itself, so on the model's
integer timestamps it is the identity. -/
def to_chrono_utc (t : Int) : Int := t

/-- The `FileMeta` that `list_file` builds from one listing entry
(main.rs lines 146-156): path `format!("{}/{}", bucket, key.unwrap_or(""))`,
size `object.size() as u64`, last-modified mapped through `to_chrono_utc`. -/
def mkFileMeta (bucket : List Char) (o : S3Object) : FileMeta :=
  { sized_file :=
      { path := bucket ++ '/' :: o.key.getD []
        size := i64_as_u64 o.size }
    last_modified := o.last_modified.map to_chrono_utc }

/-- A provider listing call: given bucket and key-prefix it yields either the
provider's error detail or the response's optional `contents` vector. -/
def ListApi : Type := List Char → List Char → Except String (Option (List S3Object))

/-- Embedding of `S3FileSystem` (main.rs lines 95-103): the six stored
override settings plus the client built at construction. -/
structure S3FileSystem where
  credentials_provider : Option String
  region : Option String
  endpoint : Option String
  retry_config : Option String
  sleep : Option String
  timeout_config : Option String
  client : ClientConfig
deriving DecidableEq, Repr

/-- Embedding of `S3FileSystem::new` (main.rs lines 106-123): stores all six
settings, and builds its listing client with
`new_client(credentials_provider, region, endpoint, None, None, None)`. -/
def S3FileSystem.new (env : ClientConfig) (platformDefault : Option String)
    (credentials_provider : Option String) (region : Option String)
    (endpoint : Option String) (retry_config : Option String)
    (sleep : Option String) (timeout_config : Option String) : S3FileSystem :=
  { credentials_provider := credentials_provider
    region := region
    endpoint := endpoint
    retry_config := retry_config
    sleep := sleep
    timeout_config := timeout_config
    client := new_client env platformDefault credentials_provider region endpoint
      none none none }

/-- Embedding of `S3FileSystem::list_file` (main.rs lines 128-159): split the
prefix at the first `'/'` into bucket and sub-prefix, issue one listing call,
map a provider error to `DataFusionError::External(S3Error::AWS(detail))`, and
on success turn each entry of `contents().unwrap_or_default()` into a
`FileMeta`.  The listing call is issued by the stored client; `api` models the
provider endpoint that client talks to. -/
def S3FileSystem.list_file (_fs : S3FileSystem) (api : ListApi)
    (prefixArg : List Char) : Except DataFusionError (List FileMeta) :=
  let bk := splitAtFirstSlash prefixArg
  match api bk.1 bk.2 with
  | .error err => .error (.External (.AWS err))
  | .ok contents =>
    .ok ((contents.getD []).map (fun o => mkFileMeta bk.1 o))

/-- Outcome type for `list_dir`: either the call panics (Rust `todo!()`
unwinds with the message `"not yet implemented"`) or it returns a stream of
entries. -/
inductive ListDirOutcome where
  | panicked (msg : String)
  | entries (es : List FileMeta)
deriving DecidableEq, Repr

/-- Embedding of `S3FileSystem::list_dir` (main.rs lines 161-163): the body is
`todo!()`, which panics with `"not yet implemented"` for every input. -/
def S3FileSystem.list_dir (_fs : S3FileSystem) (_prefixArg : List Char)
    (_delimiter : Option (List Char)) : ListDirOutcome :=
  .panicked "not yet implemented"

/-- Embedding of `AmazonS3FileReader` (main.rs lines 185-193): a copy of the
store's six settings plus the target object's `SizedFile`. -/
structure AmazonS3FileReader where
  credentials_provider : Option String
  region : Option String
  endpoint : Option String
  retry_config : Option String
  sleep : Option String
  timeout_config : Option String
  file : SizedFile
deriving DecidableEq, Repr

/-- Embedding of `AmazonS3FileReader::new` (main.rs lines 197-215): packs the
fields and always returns `Ok` (no I/O at construction). -/
def AmazonS3FileReader.new (credentials_provider : Option String)
    (region : Option String) (endpoint : Option String)
    (retry_config : Option String) (sleep : Option String)
    (timeout_config : Option String) (file : SizedFile) :
    Except DataFusionError AmazonS3FileReader :=
  .ok { credentials_provider := credentials_provider
        region := region
        endpoint := endpoint
        retry_config := retry_config
        sleep := sleep
        timeout_config := timeout_config
        file := file }

/-- Embedding of `S3FileSystem::file_reader` (main.rs lines 165-175): hands the
stored settings and the `SizedFile` to `AmazonS3FileReader::new`. -/
def S3FileSystem.file_reader (fs : S3FileSystem) (file : SizedFile) :
    Except DataFusionError AmazonS3FileReader :=
  AmazonS3FileReader.new fs.credentials_provider fs.region fs.endpoint
    fs.retry_config fs.sleep fs.timeout_config file

/-- The client the per-call worker builds inside `sync_chunk_reader`
(main.rs lines 243-251): `new_client` with all six stored settings, retry,
sleep and timeout included. -/
def AmazonS3FileReader.workerClient (rd : AmazonS3FileReader)
    (env : ClientConfig) (platformDefault : Option String) : ClientConfig :=
  new_client env platformDefault rd.credentials_provider rd.region rd.endpoint
    rd.retry_config rd.sleep rd.timeout_config

/-- The bounded wait on the handoff channel (main.rs line 289):
`rx.recv_timeout(Duration::from_secs(10))`, in seconds. -/
def timeout_ceiling_secs : Nat := 10

/-- Body of the spawned worker (main.rs lines 241-286): split the file path at
the first `'/'` into bucket and key, issue get-object with the range of
`requestRange`, and wrap any provider failure as
`DataFusionError::External(S3Error::AWS(detail))`.  Draining the body into a
buffer (`res.body.collect()`) is modelled as returning the response bytes. -/
def worker_body (store : S3Store) (file_path : List Char)
    (start length : Nat) : Except DataFusionError (List Nat) :=
  let bk := splitAtFirstSlash file_path
  match get_object store bk.1 bk.2 (requestRange start length) with
  | .ok bytes => .ok bytes
  | .error err => .error (.External (.AWS err))

/-- The calling thread's side of the handoff (main.rs lines 289-291):
when the worker's message arrives within the 10-second ceiling
(`delivered = true`) the message is propagated (`??`); otherwise
`recv_timeout` returns `RecvTimeoutError::Timeout`, whose `{:?}` format is
`"Timeout"`, and that is wrapped as an external `S3Error::AWS` error. -/
def recv_with_timeout (delivered : Bool)
    (msg : Except DataFusionError (List Nat)) :
    Except DataFusionError (List Nat) :=
  if delivered then msg else .error (.External (.AWS "Timeout"))

/-- Embedding of `AmazonS3FileReader::sync_chunk_reader`
(main.rs lines 224-294): the worker computes `worker_body` over the reader's
file path and sends it on the channel; the caller blocks on
`recv_with_timeout`.  `store` models the remote objects the worker's fresh
client sees; `delivered` models whether the message arrived within the
ceiling. -/
def AmazonS3FileReader.sync_chunk_reader (rd : AmazonS3FileReader)
    (store : S3Store) (delivered : Bool) (start length : Nat) :
    Except DataFusionError (List Nat) :=
  recv_with_timeout delivered (worker_body store rd.file.path start length)

/-- Embedding of `AmazonS3FileReader::length` (main.rs lines 296-298):
returns the stored `file.size`.  It is a pure function of the reader value
alone — it takes no `S3Store`, so no I/O and no dependence on remote state. -/
def AmazonS3FileReader.length (rd : AmazonS3FileReader) : Nat :=
  rd.file.size

theorem splitOnceSlash_of_mem {p : List Char} (h : '/' ∈ p) :
    splitOnceSlash p =
      some (p.takeWhile (fun c => c != '/'), (p.dropWhile (fun c => c != '/')).tail) := by
  induction p with
  | nil => cases h
  | cons c rest ih =>
    by_cases hc : c = '/'
    · subst hc
      simp [splitOnceSlash, List.takeWhile_cons, List.dropWhile_cons]
    · have hmem : '/' ∈ rest := by
        rcases List.mem_cons.mp h with h1 | h2
        · exact absurd h1.symm hc
        · exact h2
      simp [splitOnceSlash, hc, ih hmem, List.takeWhile_cons, List.dropWhile_cons]

theorem splitOnceSlash_of_not_mem {p : List Char} (h : '/' ∉ p) :
    splitOnceSlash p = none := by
  induction p with
  | nil => rfl
  | cons c rest ih =>
    have hc : c ≠ '/' := fun hc => h (hc ▸ List.mem_cons_self c rest)
    have hmem : '/' ∉ rest := fun hm => h (List.mem_cons_of_mem c hm)
    simp [splitOnceSlash, fun hne : c = '/' => hc hne, ih hmem]

theorem i64_as_u64_lt (n : Int) : i64_as_u64 n < 2 ^ 64 := by
  have hpos : (0 : Int) < (2 : Int) ^ 64 := by positivity
  have h1 : n % ((2 : Int) ^ 64) < (2 : Int) ^ 64 := Int.emod_lt_of_pos n hpos
  have h2 : (0 : Int) ≤ n % ((2 : Int) ^ 64) := Int.emod_nonneg n (ne_of_gt hpos)
  have h3 : ((i64_as_u64 n : Nat) : Int) = n % ((2 : Int) ^ 64) :=
    Int.toNat_of_nonneg h2
  have h4 : ((i64_as_u64 n : Nat) : Int) < (2 : Int) ^ 64 := h3 ▸ h1
  exact_mod_cast h4

/-- C4: for every prefix string containing at least one `'/'` separator,
`list_file` splits it into (container, sub-prefix) at the first separator —
container is everything before the first `'/'`, sub-prefix everything after
it; for every prefix string containing none, the whole string is the
container and the sub-prefix is empty. -/
theorem listFile_splits_at_first_separator (p : List Char) :
    ('/' ∈ p →
      splitAtFirstSlash p =
        (p.takeWhile (fun c => c != '/'),
         (p.dropWhile (fun c => c != '/')).tail)) ∧
    ('/' ∉ p → splitAtFirstSlash p = (p, [])) := by
  constructor
  · intro h
    simp [splitAtFirstSlash, splitOnceSlash_of_mem h]
  · intro h
    simp [splitAtFirstSlash, splitOnceSlash_of_not_mem h]

theorem listFile_splits_at_first_separator_witness :
    splitAtFirstSlash ("bucket1/data/".toList) =
      (("bucket1").toList, ("data/").toList) ∧
    splitAtFirstSlash ("bucket1".toList) = (("bucket1").toList, []) :=
  ⟨((listFile_splits_at_first_separator ("bucket1/data/".toList)).1
      (by decide)).trans (by decide),
   (listFile_splits_at_first_separator ("bucket1".toList)).2 (by decide)⟩

theorem sync_chunk_reader_pos_eval (rd : AmazonS3FileReader)
    (store : S3Store) (data : List Nat) (start length : Nat)
    (hstore : store (splitAtFirstSlash rd.file.path).1
        (splitAtFirstSlash rd.file.path).2 = some data)
    (hlen : 0 < length) (hstart : start < data.length) :
    rd.sync_chunk_reader store true start length =
      .ok ((data.drop start).take length) := by
  have hspan : start + (length - 1) - start + 1 = length := by omega
  simp only [AmazonS3FileReader.sync_chunk_reader, recv_with_timeout, if_pos,
    worker_body, get_object, hstore, requestRange, hlen, if_true]
  simp [hstart, hspan]
  rw [Nat.sub_add_cancel hlen]

def readerC1 : AmazonS3FileReader :=
  { credentials_provider := none, region := none, endpoint := none
    retry_config := none, sleep := none, timeout_config := none
    file := { path := "b/k".toList, size := 4 } }

def storeC1 : S3Store := fun bucket key =>
  if bucket = ("b").toList ∧ key = ("k").toList then some [1, 2, 3, 4] else none

/-- C1 counterexample: on the 4-byte object `[1, 2, 3, 4]`, the range read
`start = 1`, `length = 100` succeeds — the range request is satisfiable since
`start` is inside the object — yet returns the 3-byte buffer `[2, 3, 4]`, not
a buffer of exactly `length = 100` bytes, so the claim as stated is false. -/
theorem sync_chunk_reader_pos_length_counterexample :
    readerC1.sync_chunk_reader storeC1 true 1 100 = .ok [2, 3, 4] ∧
    ([2, 3, 4] : List Nat).length ≠ 100 :=
  ⟨rfl, by decide⟩

/-- C1 amended: every synchronous range read with `length > 0` carries the
inclusive byte-range header `bytes=start-(start+length-1)`; when the requested
span lies inside the object (`start + length ≤ size`) a successful read
returns a buffer of exactly `length` bytes whose contents equal the object's
bytes in `[start, start+length)`; but a successful read whose span extends
past the end of the object (`start < size < start + length`) returns only the
bytes from `start` to the end — fewer than `length`. -/
theorem sync_chunk_reader_pos_length_behavior (rd : AmazonS3FileReader)
    (store : S3Store) (data : List Nat) (start length : Nat)
    (hstore : store (splitAtFirstSlash rd.file.path).1
        (splitAtFirstSlash rd.file.path).2 = some data)
    (hlen : 0 < length) :
    rangeHeader start length =
      some ("bytes=" ++ toString start ++ "-" ++ toString (start + length - 1)) ∧
    (start + length ≤ data.length →
      rd.sync_chunk_reader store true start length =
        .ok ((data.drop start).take length) ∧
      ((data.drop start).take length).length = length) ∧
    (start < data.length → data.length < start + length →
      rd.sync_chunk_reader store true start length = .ok (data.drop start) ∧
      (data.drop start).length = data.length - start ∧
      (data.drop start).length < length) := by
  refine ⟨?_, ?_, ?_⟩
  · simp only [rangeHeader, requestRange, hlen, if_true, Option.map_some']
    rw [Nat.add_sub_assoc hlen]
  · intro hin
    have hstart : start < data.length :=
      lt_of_lt_of_le (Nat.lt_add_of_pos_right hlen) hin
    refine ⟨sync_chunk_reader_pos_eval rd store data start length hstore hlen
      hstart, ?_⟩
    rw [List.length_take, List.length_drop]
    omega
  · intro hstart hover
    have heval := sync_chunk_reader_pos_eval rd store data start length hstore
      hlen hstart
    have hle : (data.drop start).length ≤ length := by
      rw [List.length_drop]
      omega
    rw [List.take_of_length_le hle] at heval
    refine ⟨heval, List.length_drop start data, ?_⟩
    rw [List.length_drop]
    omega

theorem sync_chunk_reader_pos_length_behavior_witness :
    readerC1.sync_chunk_reader storeC1 true 1 2 = .ok [2, 3] ∧
    rangeHeader 1 2 = some "bytes=1-2" ∧
    readerC1.sync_chunk_reader storeC1 true 1 100 = .ok [2, 3, 4] := by
  have h := sync_chunk_reader_pos_length_behavior readerC1 storeC1 [1, 2, 3, 4]
    1 2 (by decide) (by decide)
  have h2 := sync_chunk_reader_pos_length_behavior readerC1 storeC1 [1, 2, 3, 4]
    1 100 (by decide) (by decide)
  exact ⟨((h.2.1 (by decide)).1).trans rfl, h.1.trans rfl,
    ((h2.2.2 (by decide) (by decide)).1).trans rfl⟩

def readerC2 : AmazonS3FileReader :=
  { credentials_provider := none, region := none, endpoint := none
    retry_config := none, sleep := none, timeout_config := none
    file := { path := "b/k".toList, size := 3 } }

def storeC2 : S3Store := fun bucket key =>
  if bucket = ("b").toList ∧ key = ("k").toList then some [10, 20, 30] else none

/-- C2 counterexample: a concrete successful read with `length == 0` and
`start = 1` on the 3-byte object `[10, 20, 30]` returns the whole object
`[10, 20, 30]`, not the bytes `[20, 30]` from offset `start` to the end, so
the claim as stated is false. -/
theorem sync_chunk_reader_zero_length_counterexample :
    readerC2.sync_chunk_reader storeC2 true 1 0 = .ok [10, 20, 30] ∧
    readerC2.sync_chunk_reader storeC2 true 1 0 ≠
      .ok (([10, 20, 30] : List Nat).drop 1) := by
  constructor
  · rfl
  · intro h
    have h2 : ([10, 20, 30] : List Nat) = [20, 30] := by
      have h1 : (Except.ok [10, 20, 30] :
          Except DataFusionError (List Nat)) = .ok [20, 30] := h
      injection h1
    simp at h2

/-- C2 amended: for every successful synchronous range read with
`length == 0`, `sync_chunk_reader` omits the range header and returns all
bytes of the object from offset 0 to the end (the entire object), whatever
`start` is; this equals the bytes from `start` to the end only when
`start = 0`. -/
theorem sync_chunk_reader_zero_length_whole_object (rd : AmazonS3FileReader)
    (store : S3Store) (data : List Nat) (start : Nat)
    (hstore : store (splitAtFirstSlash rd.file.path).1
        (splitAtFirstSlash rd.file.path).2 = some data) :
    rd.sync_chunk_reader store true start 0 = .ok data ∧
    rangeHeader start 0 = none := by
  constructor
  · simp [AmazonS3FileReader.sync_chunk_reader, recv_with_timeout, worker_body,
      get_object, hstore, requestRange]
  · rfl

theorem sync_chunk_reader_zero_length_whole_object_witness :
    readerC2.sync_chunk_reader storeC2 true 1 0 = .ok [10, 20, 30] ∧
    rangeHeader 1 0 = none :=
  sync_chunk_reader_zero_length_whole_object readerC2 storeC2 [10, 20, 30] 1
    (by decide)

/-- C3: for every `sync_chunk_reader` call, the caller's bounded wait on the
handoff channel has a 10-second ceiling; when the worker's message does not
arrive within it (`delivered = false`) the call returns the timeout error
(`RecvTimeoutError::Timeout` wrapped as an external `S3Error`), never an `ok`
buffer, and the abandoned worker's eventual outcome is discarded: the returned
value is the same whatever remote store the worker runs against. -/
theorem sync_chunk_reader_timeout (rd : AmazonS3FileReader)
    (store store2 : S3Store) (start length : Nat) :
    timeout_ceiling_secs = 10 ∧
    rd.sync_chunk_reader store false start length =
      .error (.External (.AWS "Timeout")) ∧
    (∀ buf : List Nat,
      rd.sync_chunk_reader store false start length ≠ .ok buf) ∧
    rd.sync_chunk_reader store false start length =
      rd.sync_chunk_reader store2 false start length := by
  refine ⟨rfl, rfl, ?_, rfl⟩
  intro buf h
  exact Except.noConfusion h

def readerC3 : AmazonS3FileReader :=
  { credentials_provider := none, region := none, endpoint := none
    retry_config := none, sleep := none, timeout_config := none
    file := { path := "b/k".toList, size := 3 } }

def storeC3 : S3Store := fun _ _ => none

theorem sync_chunk_reader_timeout_witness :
    readerC3.sync_chunk_reader storeC3 false 0 1 =
      .error (.External (.AWS "Timeout")) ∧
    readerC3.sync_chunk_reader storeC3 false 0 1 ≠ .ok [9] :=
  ⟨(sync_chunk_reader_timeout readerC3 storeC3 storeC3 0 1).2.1,
   (sync_chunk_reader_timeout readerC3 storeC3 storeC3 0 1).2.2.1 [9]⟩

/-- C5: for every `list_file` call where the remote listing API fails, the
call returns the listing error — `DataFusionError::External` wrapping
`S3Error::AWS` with the provider's error detail as an opaque string — and no
entry sequence is produced (the result is never `ok`). -/
theorem list_file_remote_error (fs : S3FileSystem) (api : ListApi)
    (prefixArg : List Char) (err : String)
    (hapi : api (splitAtFirstSlash prefixArg).1
        (splitAtFirstSlash prefixArg).2 = .error err) :
    fs.list_file api prefixArg = .error (.External (.AWS err)) ∧
    ∀ metas : List FileMeta, fs.list_file api prefixArg ≠ .ok metas := by
  have h1 : fs.list_file api prefixArg = .error (.External (.AWS err)) := by
    simp [S3FileSystem.list_file, hapi]
  refine ⟨h1, ?_⟩
  intro metas h
  rw [h1] at h
  exact Except.noConfusion h

def fsW : S3FileSystem :=
  { credentials_provider := none, region := none, endpoint := none
    retry_config := none, sleep := none, timeout_config := none
    client := { credentials := "envCred", region := some "envRegion"
                endpoint := "envEndpoint", retry := "envRetry"
                sleep := "envSleep", timeout := "envTimeout" } }

def apiErrW : ListApi := fun _ _ => .error "boom"

theorem list_file_remote_error_witness :
    fsW.list_file apiErrW ("b/p".toList) = .error (.External (.AWS "boom")) ∧
    fsW.list_file apiErrW ("b/p".toList) ≠ .ok [] :=
  ⟨(list_file_remote_error fsW apiErrW ("b/p".toList) "boom" rfl).1,
   (list_file_remote_error fsW apiErrW ("b/p".toList) "boom" rfl).2 []⟩

/-- C6: for every invocation of `list_dir` (any receiver, prefix, delimiter),
the call fails loudly — it panics via `todo!()` with the message
`"not yet implemented"` — and never returns a stream of entries, in
particular never a silently empty one. -/
theorem list_dir_not_implemented (fs : S3FileSystem) (p : List Char)
    (delim : Option (List Char)) :
    fs.list_dir p delim = .panicked "not yet implemented" ∧
    ∀ es : List FileMeta, fs.list_dir p delim ≠ .entries es := by
  refine ⟨rfl, ?_⟩
  intro es h
  exact ListDirOutcome.noConfusion h

theorem list_dir_not_implemented_witness :
    fsW.list_dir ("b".toList) none = .panicked "not yet implemented" ∧
    fsW.list_dir ("b".toList) none ≠ .entries [] :=
  ⟨(list_dir_not_implemented fsW ("b".toList) none).1,
   (list_dir_not_implemented fsW ("b".toList) none).2 []⟩

/-- C7: `new_client` applies each optional override on top of the loaded
environment defaults, producing the same configuration as applying them in the
order credentials → region → endpoint → retry → sleep/backoff → timeout; each
absent override falls through to the loaded default, and the region is
resolved by the three-tier chain explicit value → platform-default provider →
hardcoded fallback `"us-west-2"`. -/
theorem new_client_layered_overrides (env : ClientConfig)
    (platformDefault : Option String)
    (cred rg ep rc sl tc : Option String) (r0 p0 : String) :
    new_client env platformDefault cred rg ep rc sl tc =
      applyOverridesSpecOrder env platformDefault cred rg ep rc sl tc ∧
    (new_client env platformDefault cred rg ep rc sl tc).credentials =
      cred.getD env.credentials ∧
    (new_client env platformDefault cred rg ep rc sl tc).region =
      some (resolveRegion rg platformDefault) ∧
    (new_client env platformDefault cred rg ep rc sl tc).endpoint =
      ep.getD env.endpoint ∧
    (new_client env platformDefault cred rg ep rc sl tc).retry =
      rc.getD env.retry ∧
    (new_client env platformDefault cred rg ep rc sl tc).sleep =
      sl.getD env.sleep ∧
    (new_client env platformDefault cred rg ep rc sl tc).timeout =
      tc.getD env.timeout ∧
    resolveRegion (some r0) platformDefault = r0 ∧
    resolveRegion none (some p0) = p0 ∧
    resolveRegion none none = "us-west-2" := by
  cases cred <;> cases ep <;> cases rc <;> cases sl <;> cases tc <;>
    exact ⟨rfl, rfl, rfl, rfl, rfl, rfl, rfl, rfl, rfl, rfl⟩

/-- C8: `S3FileSystem::new` builds the client it stores for listing with
`None` for the retry, sleep and timeout policies even when the caller supplies
them — the stored client keeps the environment's retry/sleep/timeout settings
— while the reader handed out by `file_reader` carries the supplied settings,
and the per-range-read worker client is built with all of them. -/
theorem s3_new_listing_client_ignores_policies (env : ClientConfig)
    (platformDefault : Option String) (cred rg ep rc sl tc : Option String)
    (file : SizedFile) :
    (S3FileSystem.new env platformDefault cred rg ep rc sl tc).client =
      new_client env platformDefault cred rg ep none none none ∧
    (S3FileSystem.new env platformDefault cred rg ep rc sl tc).client.retry =
      env.retry ∧
    (S3FileSystem.new env platformDefault cred rg ep rc sl tc).client.sleep =
      env.sleep ∧
    (S3FileSystem.new env platformDefault cred rg ep rc sl tc).client.timeout =
      env.timeout ∧
    (S3FileSystem.new env platformDefault cred rg ep rc sl tc).file_reader
        file =
      .ok { credentials_provider := cred, region := rg, endpoint := ep
            retry_config := rc, sleep := sl, timeout_config := tc
            file := file } ∧
    ({ credentials_provider := cred, region := rg, endpoint := ep
       retry_config := rc, sleep := sl, timeout_config := tc
       file := file } : AmazonS3FileReader).workerClient env platformDefault =
      new_client env platformDefault cred rg ep rc sl tc := by
  cases cred <;> cases ep <;> exact ⟨rfl, rfl, rfl, rfl, rfl, rfl⟩

/-- C9: `length()` returns the object size captured in the reader's metadata
at construction: for every reader built by `AmazonS3FileReader::new` the
result equals the constructed file's size, and in general `length` only reads
the stored metadata (`rd.file.size`) — it takes no remote store, so it
performs no I/O and cannot observe remote-side mutation. -/
theorem reader_length_is_constructed_size (cred rg ep rc sl tc : Option String)
    (file : SizedFile) (rd : AmazonS3FileReader)
    (h : AmazonS3FileReader.new cred rg ep rc sl tc file = .ok rd) :
    rd.length = file.size ∧ rd.length = rd.file.size := by
  injection h with h'
  subst h'
  exact ⟨rfl, rfl⟩

theorem reader_length_is_constructed_size_witness :
    ({ credentials_provider := none, region := none, endpoint := none
       retry_config := none, sleep := none, timeout_config := none
       file := { path := "b/k".toList, size := 7 } } :
      AmazonS3FileReader).length = 7 :=
  (reader_length_is_constructed_size none none none none none none
    { path := "b/k".toList, size := 7 } _ rfl).1

/-- C10: for every object entry of a successful `list_file` call, the
produced metadata is exactly `mkFileMeta`: path is the container name, a `'/'`
separator and the object's key concatenated, size is the provider-reported
count cast to an unsigned 64-bit value (`i64 as u64`, hence below `2^64`), and
the optional last-modified timestamp is taken from the provider entry. -/
theorem list_file_meta_fields (fs : S3FileSystem) (api : ListApi)
    (prefixArg : List Char) (objs : List S3Object)
    (hapi : api (splitAtFirstSlash prefixArg).1
        (splitAtFirstSlash prefixArg).2 = .ok (some objs)) :
    fs.list_file api prefixArg =
      .ok (objs.map (fun o => mkFileMeta (splitAtFirstSlash prefixArg).1 o)) ∧
    ∀ o : S3Object,
      (mkFileMeta (splitAtFirstSlash prefixArg).1 o).sized_file.path =
        (splitAtFirstSlash prefixArg).1 ++ '/' :: o.key.getD [] ∧
      (mkFileMeta (splitAtFirstSlash prefixArg).1 o).sized_file.size =
        i64_as_u64 o.size ∧
      (mkFileMeta (splitAtFirstSlash prefixArg).1 o).sized_file.size < 2 ^ 64 ∧
      (mkFileMeta (splitAtFirstSlash prefixArg).1 o).last_modified =
        o.last_modified.map to_chrono_utc := by
  refine ⟨?_, fun o => ⟨rfl, rfl, i64_as_u64_lt o.size, rfl⟩⟩
  simp [S3FileSystem.list_file, hapi]

def objW : S3Object :=
  { key := some ("k".toList), size := 5, last_modified := some 99 }

def apiOkW : ListApi := fun _ _ => .ok (some [objW])

theorem list_file_meta_fields_witness :
    fsW.list_file apiOkW ("b/p".toList) =
      .ok [{ sized_file := { path := "b/k".toList, size := 5 }
             last_modified := some 99 }] :=
  ((list_file_meta_fields fsW apiOkW ("b/p".toList) [objW] rfl).1).trans rfl
